import Mathlib

/-!
Verification of the esp32-pi-solar-control node/hub protocol and state
machine, shallowly embedded from the Python sources:
`src/esp32_sensor/monitor.py`, `src/esp32_sensor/ble_client.py`,
`src/pizero/server.py` and `src/solar_logger/solar_logger.py`.
Temperatures, durations and timestamps (Python floats) are modelled as
rationals; JSON payloads as flat key/value objects.
-/

/-- A Python scalar as it appears in a command's `value` field:
a number (int or float), a string, or `None`. -/
inductive PyVal
  | num (q : ℚ)
  | str (s : String)
  | none_
deriving DecidableEq

/-- Python truthiness of a `PyVal` (`0`, `""` and `None` are falsy). -/
def PyVal.truthy : PyVal → Bool
  | .num q => decide (q ≠ 0)
  | .str s => decide (s ≠ "")
  | .none_ => false

/-- `isinstance(v, (int, float))`. -/
def PyVal.isNumber : PyVal → Bool
  | .num _ => true
  | _ => false

/-- Numeric value of a `PyVal` (only meaningful when `isNumber`). -/
def PyVal.toNum : PyVal → ℚ
  | .num q => q
  | _ => 0

/-- A command `{type, value}` as exchanged between hub and node. -/
structure Command where
  type : String
  value : PyVal
deriving DecidableEq

/-! ## Persisted device state (`StateManager`, monitor.py) -/

/-- The in-memory device state held by `StateManager.state`. -/
structure DeviceState where
  valve_open : Bool
  deepsleep_duration : ℚ
deriving DecidableEq

/-- The defaults installed by `StateManager.__init__`:
`{'valve_open': False, 'deepsleep_duration': 10}`. -/
def defaultState : DeviceState := ⟨false, 10⟩

/-- The parsed contents of `device_state.json`: each known key may be
present or absent (a JSON object updates the defaults key by key). -/
structure SavedState where
  valve_open : Option Bool
  deepsleep_duration : Option ℚ
deriving DecidableEq

/-- The state file as found at boot: absent, present but not valid JSON,
or parsed. -/
inductive StateFile
  | absent
  | unparsable
  | parsed (s : SavedState)

/-- `self.state.update(saved_state)`: keys present in the file override
the defaults key by key. -/
def update_state (st : DeviceState) (s : SavedState) : DeviceState :=
  ⟨s.valve_open.getD st.valve_open, s.deepsleep_duration.getD st.deepsleep_duration⟩

/-- `StateManager._load_state`: on a parsed file, merge it over the
defaults; on `OSError`/`ValueError` (absent or unparsable file) fall back
to the defaults and call `_save_state`. Returns the resulting in-memory
state and the contents written back to disk (`none` when no save ran). -/
def load_state (file : StateFile) : DeviceState × Option DeviceState :=
  match file with
  | .parsed s => (update_state defaultState s, none)
  | _ => (defaultState, some defaultState)

/-! ## Valve controller (`ValveControl`, monitor.py) -/

/-- Valve state: `is_open` mirrors `ValveControl._is_open`, `pin` the GPIO
output level of `VALVE_CONTROL_PIN`, `persisted_valve_open` the
`valve_open` key of the persisted state file. -/
structure ValveSt where
  is_open : Bool
  pin : Bool
  persisted_valve_open : Bool
deriving DecidableEq

/-- Outcome of one `toggle`/`_open`/`_close` call: the resulting valve
state, how many GPIO writes and state-file writes were performed, and
whether an exception escaped to the caller. -/
structure ToggleResult where
  st : ValveSt
  actuations : Nat
  persists : Nat
  raised : Bool
deriving DecidableEq

/-- `ValveControl._open`: no-op when already open; otherwise sets
`self._is_open = True` FIRST, then writes the GPIO (`self._pin.value(1)`,
which raises when `pinOk` is false), then persists `valve_open = True`.
On a GPIO failure the in-memory flag has already been flipped. -/
def valve_open_step (pinOk : Bool) (v : ValveSt) : ToggleResult :=
  if v.is_open then ⟨v, 0, 0, false⟩
  else
    if pinOk then ⟨⟨true, true, true⟩, 1, 1, false⟩
    else ⟨⟨true, v.pin, v.persisted_valve_open⟩, 0, 0, true⟩

/-- `ValveControl._close`, symmetric to `_open`. -/
def valve_close_step (pinOk : Bool) (v : ValveSt) : ToggleResult :=
  if !v.is_open then ⟨v, 0, 0, false⟩
  else
    if pinOk then ⟨⟨false, false, false⟩, 1, 1, false⟩
    else ⟨⟨false, v.pin, v.persisted_valve_open⟩, 0, 0, true⟩

/-- `ValveControl.toggle`: dispatches to `_open`/`_close` inside a
`try/except Exception` that prints the error — exceptions never
propagate to the caller. -/
def toggle (pinOk openReq : Bool) (v : ValveSt) : ToggleResult :=
  let r := if openReq then valve_open_step pinOk v else valve_close_step pinOk v
  ⟨r.st, r.actuations, r.persists, false⟩

/-- A sequence of toggle requests, each with a working GPIO. -/
def run_toggles (reqs : List Bool) (v : ValveSt) : ValveSt :=
  reqs.foldl (fun s r => (toggle true r s).st) v

/-- Outcome of `ValveControl.__init__`: resulting valve state plus how
many `toggle` calls and state-file writes it performed. -/
structure ValveInitResult where
  st : ValveSt
  toggles : Nat
  persists : Nat
deriving DecidableEq

/-- `ValveControl.__init__`: loads `valve_open` from the state manager,
sets the GPIO to match the persisted value, and calls neither `toggle`
nor `_save_state`. -/
def valve_init (persisted : Bool) : ValveInitResult :=
  ⟨⟨persisted, persisted, persisted⟩, 0, 0⟩

/-- Node restart after power loss: `StateManager` loads the state file,
then `ValveControl.__init__` restores the physical valve from the
persisted `valve_open`. -/
def restart (file : StateFile) :
    DeviceState × Option DeviceState × ValveInitResult :=
  ((load_state file).1, (load_state file).2,
    valve_init (load_state file).1.valve_open)

/-! ## Command handling (`handle_command`, monitor.py) -/

/-- What `handle_command` logs. -/
inductive HandleLog
  | setDuration (q : ℚ)
  | invalidDuration
  | unknown (t : String)
deriving DecidableEq

/-- `handle_command` from monitor.py. `none` models a falsy or non-dict
`cmd` (early return, nothing logged). A `deepsleep_duration` command is
accepted iff `duration and isinstance(duration, (int, float)) and
duration > 0`; otherwise it is rejected with a logged warning and no
state change. Unknown types are logged and ignored. -/
def handle_command (cmd : Option Command) (st : DeviceState) :
    DeviceState × Option HandleLog :=
  match cmd with
  | none => (st, none)
  | some c =>
    if c.type = "deepsleep_duration" then
      if c.value.truthy && c.value.isNumber && decide (0 < c.value.toNum) then
        (⟨st.valve_open, c.value.toNum⟩, some (.setDuration c.value.toNum))
      else (st, some .invalidDuration)
    else (st, some (.unknown c.type))

/-! ## Wake-cycle decision (`read_temperature_loop`, monitor.py) -/

/-- `TEMP_THRESHOLD = 0.5` celsius from monitor.py. -/
def TEMP_THRESHOLD : ℚ := 1 / 2

/-- The decision and actuation step of one wake cycle in
`read_temperature_loop`. Computing
`should_open = solar_temp + threshold > tank_temp` raises `TypeError`
when either reading is `None`; the loop's `except Exception` catches it
before `valve.toggle` runs, so the valve keeps its prior position and no
decision is produced. With both readings present, `valve.toggle` drives
the valve to the decision. Returns the valve state and the decision. -/
def decide_step (solar tank : Option ℚ) (threshold : ℚ) (v : ValveSt) :
    ValveSt × Option Bool :=
  match solar, tank with
  | some s, some t =>
      ((toggle true (decide (s + threshold > t)) v).st,
        some (decide (s + threshold > t)))
  | _, _ => (v, none)

/-! ## Command drain protocol (ble_client.py and pizero/server.py) -/

/-- The reserved end-of-stream marker `{"type": "eof", "value": ""}`
served by the hub when its queue is empty. -/
def eof_command : Command := ⟨"eof", .str ""⟩

/-- The serving loop of `TemperatureServer.start_ble_peripheral`:
`while self._current_command:` pops the front command, exposes it on the
command characteristic and waits for exactly one client read; once the
queue is empty it exposes the EOF marker and waits for its read. Returns
the sequence of values served to successive reads, paired with the final
queue contents. -/
def hub_serve : List Command → List Command × List Command
  | [] => ([eof_command], [])
  | c :: rest =>
      let r := hub_serve rest
      (c :: r.1, r.2)

/-- The read loop of `Sensor.scan_and_read_commands`: repeatedly reads
the characteristic; a value whose `type` is not `"eof"` is forwarded to
the caller's callback and the loop reads again; an `"eof"` value breaks
the loop. Returns the commands forwarded to the callback, in order,
paired with the function's return value `json.loads(value)` — the LAST
value read (`none` if the stream is exhausted with no eof, in which case
the next read would block). -/
def drain_loop : List Command → List Command × Option Command
  | [] => ([], none)
  | c :: rest =>
      if c.type = "eof" then ([], some c)
      else
        let r := drain_loop rest
        (c :: r.1, r.2)

/-- One complete drain session: the node reads exactly the sequence of
values the hub serves. Returns ((commands forwarded to the handler,
value returned by the drain function), final hub queue). -/
def drain_session (q : List Command) :
    (List Command × Option Command) × List Command :=
  (drain_loop (hub_serve q).1, (hub_serve q).2)

/-! ## Telemetry round trip (monitor.py and pizero/server.py) -/

/-- A flat JSON scalar. -/
inductive JVal
  | null
  | num (q : ℚ)
  | bool (b : Bool)
  | str (s : String)
deriving DecidableEq

/-- A telemetry reading as fixed on the node for one wake cycle. -/
structure TelemetryReading where
  solar : Option ℚ
  tank : Option ℚ
  faucet_closed : Bool
  timestamp : Int
deriving DecidableEq

/-- A failed probe (`None`) serializes to JSON `null`. -/
def optJ : Option ℚ → JVal
  | none => .null
  | some q => .num q

/-- The payload dict built in `read_temperature_loop` and serialized with
`json.dumps`: `{"solar": ..., "tank": ..., "faucet_closed": ...}`.
Note: the node puts NO "timestamp" key in the payload. -/
def node_serialize (r : TelemetryReading) : List (String × JVal) :=
  [("solar", optJ r.solar), ("tank", optJ r.tank),
    ("faucet_closed", .bool r.faucet_closed)]

/-- `payload.get(key, default)` on a parsed JSON object. -/
def jget (payload : List (String × JVal)) (key : String) (default : JVal) :
    JVal :=
  match payload.lookup key with
  | some v => v
  | none => default

/-- The hub's `Metrics` record after the assignment statements in
`start_ble_peripheral`'s discovery loop; pydantic does not re-validate on
plain attribute assignment, so a JSON `null` is stored as-is. -/
structure Metrics where
  solar : JVal
  tank : JVal
  faucet_closed : JVal
  timestamp : Int
deriving DecidableEq

/-- The parse/update step of `TemperatureServer.start_ble_discovery`
(src/pizero/server.py): each field is taken from the payload with
`payload.get`, and `timestamp` is set to `int(loop.time())` — the hub's
own clock, passed here as `hubTime`. -/
def hub_parse (payload : List (String × JVal)) (hubTime : Int) : Metrics :=
  ⟨jget payload "solar" (.num 0), jget payload "tank" (.num 0),
    jget payload "faucet_closed" (.bool false), hubTime⟩

/-! ## Hub-side event logger (`SolarEventLogger`, solar_logger.py) -/

/-- `MAX_DATA_AGE = 7 * 24 * 60 * 60` seconds (one week). -/
def MAX_DATA_AGE : ℚ := 7 * 24 * 60 * 60

/-- A temperature entry `{ts, s, t}`. -/
structure TempEntry where
  ts : ℚ
  s : ℚ
  t : ℚ
deriving DecidableEq

/-- A faucet event `{ts, c}`. -/
structure FaucetEvent where
  ts : ℚ
  c : Bool
deriving DecidableEq

/-- The logger's two retained lists. -/
structure LoggerState where
  data : List TempEntry
  faucet_events : List FaucetEvent
deriving DecidableEq

/-- The retention test `entry[TIMESTAMP] > cutoff_time`. -/
def keep (cutoff ts : ℚ) : Bool := decide (cutoff < ts)

/-- `SolarEventLogger.add_reading`: appends the new entry, then prunes
`self.data` — and only `self.data` — to the one-week window. -/
def add_reading (st : LoggerState) (now solar tank : ℚ) : LoggerState :=
  ⟨(st.data ++ [TempEntry.mk now solar tank]).filter
      (fun e => keep (now - MAX_DATA_AGE) e.ts),
    st.faucet_events⟩

/-- `SolarEventLogger.add_faucet_event`: appends the new event, then
prunes `self.faucet_events` — and only `self.faucet_events` — to the
one-week window. -/
def add_faucet_event (st : LoggerState) (now : ℚ) (closed : Bool) :
    LoggerState :=
  ⟨st.data,
    (st.faucet_events ++ [FaucetEvent.mk now closed]).filter
      (fun e => keep (now - MAX_DATA_AGE) e.ts)⟩

/-- The cutoff selected by `SolarEventLogger.get_data`; any unrecognized
timeframe string falls back to the one-week window. -/
def timeframe_cutoff (now : ℚ) (tf : String) : ℚ :=
  if tf = "day" then now - 24 * 60 * 60
  else if tf = "hour" then now - 60 * 60
  else if tf = "minute" then now - 60
  else if tf = "week" then now - 7 * 24 * 60 * 60
  else now - MAX_DATA_AGE

/-- `SolarEventLogger.get_data`: filters both retained lists by the
selected cutoff without mutating them. -/
def get_data (st : LoggerState) (now : ℚ) (tf : String) :
    List TempEntry × List FaucetEvent :=
  (st.data.filter (fun e => keep (timeframe_cutoff now tf) e.ts),
    st.faucet_events.filter (fun e => keep (timeframe_cutoff now tf) e.ts))

/-! ## Helper lemmas -/

/-- A successful toggle either leaves the state alone (when the request
matches the current in-memory position) or moves all three components to
the requested value. -/
theorem toggle_true_st (x : Bool) (v : ValveSt) :
    (toggle true x v).st = if v.is_open = x then v else ⟨x, x, x⟩ := by
  obtain ⟨a, b, c⟩ := v
  cases a <;> cases x <;>
    simp [toggle, valve_open_step, valve_close_step]

/-- A successful toggle performs one actuation and one persistence write
when the position changes, none otherwise. -/
theorem toggle_true_counts (x : Bool) (v : ValveSt) :
    (toggle true x v).actuations = (if v.is_open = x then 0 else 1)
    ∧ (toggle true x v).persists = (if v.is_open = x then 0 else 1) := by
  obtain ⟨a, b, c⟩ := v
  cases a <;> cases x <;>
    simp [toggle, valve_open_step, valve_close_step]

/-- After a successful toggle the in-memory position equals the request. -/
theorem toggle_true_is_open (x : Bool) (v : ValveSt) :
    ((toggle true x v).st).is_open = x := by
  rw [toggle_true_st]
  split <;> simp_all

/-! ## Claims -/

/-- C1: with both temperatures present, the wake-cycle decision equals
`solar + threshold > tank` and the valve is driven to it; with either
reading null, the `TypeError` is caught before `valve.toggle` runs, so no
decision is made and the valve state (pin included) is left unchanged. -/
theorem decide_step_spec (θ s t : ℚ) (v : ValveSt) (solar tank : Option ℚ)
    (h : solar = none ∨ tank = none) :
    (decide_step (some s) (some t) θ v).2 = some (decide (s + θ > t))
    ∧ ((decide_step (some s) (some t) θ v).1).is_open = decide (s + θ > t)
    ∧ decide_step solar tank θ v = (v, none) := by
  refine ⟨rfl, toggle_true_is_open _ v, ?_⟩
  rcases h with h | h <;> subst h
  · cases tank <;> rfl
  · cases solar <;> rfl

/-- Witness for C1 at solar 21, tank 30, threshold 1/2 and a null solar
reading. -/
theorem decide_step_spec_witness :
    (decide_step (some 21) (some 30) (1 / 2) ⟨false, false, false⟩).2
      = some (decide ((21 : ℚ) + 1 / 2 > 30))
    ∧ decide_step (none : Option ℚ) (some 30) (1 / 2) ⟨false, false, false⟩
      = (⟨false, false, false⟩, none) :=
  ⟨(decide_step_spec (1 / 2) 21 30 ⟨false, false, false⟩ none (some 30)
      (Or.inl rfl)).1,
    (decide_step_spec (1 / 2) 21 30 ⟨false, false, false⟩ none (some 30)
      (Or.inl rfl)).2.2⟩

/-- C2 counterexample: from the closed state, an open request with a
failing GPIO write returns normally (`raised = false`: the exception is
swallowed by `toggle`, not propagated) while the in-memory flag has
already been flipped to `true` — so neither "error propagated to the
caller" nor "in-memory position left unchanged" holds. -/
theorem toggle_failure_cex :
    (toggle false true ⟨false, false, false⟩).raised = false
    ∧ ((toggle false true ⟨false, false, false⟩).st).is_open = true
    ∧ ((toggle false true ⟨false, false, false⟩).st).persisted_valve_open
      = false := by
  refine ⟨rfl, rfl, rfl⟩

/-- C2 amended: on actuation failure nothing is actuated or persisted
(pin level and persisted value unchanged), the exception is caught and
logged inside `toggle` and never propagated, but the in-memory flag has
already been set to the requested position (it is assigned before the
GPIO write), so the in-memory value is not rolled back. -/
theorem toggle_failure_spec (v : ValveSt) (x : Bool) :
    (toggle false x v).raised = false
    ∧ ((toggle false x v).st).persisted_valve_open = v.persisted_valve_open
    ∧ ((toggle false x v).st).pin = v.pin
    ∧ (toggle false x v).actuations = 0
    ∧ (toggle false x v).persists = 0
    ∧ ((toggle false x v).st).is_open = x := by
  obtain ⟨a, b, c⟩ := v
  cases a <;> cases x <;>
    simp [toggle, valve_open_step, valve_close_step]

/-- C4: with an empty queue at drain start, the hub's first served value
is already the end-of-stream marker (it does not block waiting for a
command), and the node's drain forwards no commands, terminates on that
first read, and leaves the queue empty. -/
theorem drain_empty_spec :
    hub_serve [] = ([eof_command], [])
    ∧ drain_session [] = (([], some eof_command), []) :=
  ⟨rfl, rfl⟩

/-- C5: restarting with a persisted `{valve_open: true,
deepsleep_duration: 30}` restores exactly those two values in memory,
drives the physical pin to the persisted `valve_open`, and performs no
toggle call and no persistence write during restart. -/
theorem restart_persisted_spec :
    restart (.parsed ⟨some true, some 30⟩)
      = (⟨true, 30⟩, none, ⟨⟨true, true, true⟩, 0, 0⟩) := by
  rfl

/-- C7: an absent or unparsable state file yields exactly the defaults
`{valve_open: false, deepsleep_duration: 10}` and those defaults are
immediately written back to the file; a parsed file overrides the
defaults key by key and nothing is written back. -/
theorem load_state_spec (s : SavedState) :
    defaultState = ⟨false, 10⟩
    ∧ load_state .absent = (defaultState, some defaultState)
    ∧ load_state .unparsable = (defaultState, some defaultState)
    ∧ load_state (.parsed s)
      = (⟨s.valve_open.getD defaultState.valve_open,
          s.deepsleep_duration.getD defaultState.deepsleep_duration⟩,
          none) :=
  ⟨rfl, rfl, rfl, rfl⟩

/-- C3 counterexample: draining the queue `[A, B]` forwards `[A, B]` to
the handler and empties the queue, but the drain function's return value
(`json.loads(value)` after the loop) is the parsed end-of-stream marker,
which is not one of the drained commands — it does not return the list of
drained commands. -/
theorem drain_two_cex :
    drain_session
        [⟨"deepsleep_duration", PyVal.num 45⟩, ⟨"other", PyVal.str "b"⟩]
      = (([⟨"deepsleep_duration", PyVal.num 45⟩, ⟨"other", PyVal.str "b"⟩],
          some eof_command), [])
    ∧ eof_command ∉
        [(⟨"deepsleep_duration", PyVal.num 45⟩ : Command),
          ⟨"other", PyVal.str "b"⟩] := by
  refine ⟨rfl, by decide⟩

/-- C3 amended: for a queue holding exactly two non-eof commands A and B,
the drain invokes the handler with exactly A then B in that order (the hub
pops one entry per read before the marker), terminates on the
end-of-stream marker, and leaves the hub queue empty; the function's
return value is the parsed end-of-stream marker, not the list of drained
commands (which reach the caller through the callback). -/
theorem drain_two_spec (A B : Command) (hA : A.type ≠ "eof")
    (hB : B.type ≠ "eof") :
    drain_session [A, B] = (([A, B], some eof_command), []) := by
  simp [drain_session, hub_serve, drain_loop, eof_command, hA, hB]

/-- Witness for C3 (amended) on two concrete non-eof commands. -/
theorem drain_two_spec_witness :
    drain_session [⟨"a", PyVal.none_⟩, ⟨"b", PyVal.none_⟩]
      = (([⟨"a", PyVal.none_⟩, ⟨"b", PyVal.none_⟩], some eof_command), []) :=
  drain_two_spec ⟨"a", PyVal.none_⟩ ⟨"b", PyVal.none_⟩ (by decide) (by decide)

/-- C6: a `deepsleep_duration` command with a positive numeric value
updates the persisted sleep interval to that value (leaving `valve_open`
untouched); with a non-positive or non-numeric value the state is left
entirely unchanged and a rejection is logged. -/
theorem handle_deepsleep_spec (st : DeviceState) (v : PyVal) :
    (∀ q : ℚ, v = PyVal.num q → 0 < q →
      handle_command (some ⟨"deepsleep_duration", v⟩) st
        = (⟨st.valve_open, q⟩, some (HandleLog.setDuration q)))
    ∧ ((∀ q : ℚ, v = PyVal.num q → q ≤ 0) →
      handle_command (some ⟨"deepsleep_duration", v⟩) st
        = (st, some HandleLog.invalidDuration)) := by
  constructor
  · rintro q rfl hq
    simp [handle_command, PyVal.truthy, PyVal.isNumber, PyVal.toNum, hq,
      hq.ne.symm]
  · intro h
    cases v with
    | num q =>
        have hq : ¬ (0 : ℚ) < q := not_lt.mpr (h q rfl)
        simp [handle_command, PyVal.truthy, PyVal.isNumber, PyVal.toNum, hq]
    | str s => simp [handle_command, PyVal.isNumber]
    | none_ => simp [handle_command, PyVal.truthy]

/-- Witness for C6 at values 45, -1 and "x". -/
theorem handle_deepsleep_spec_witness :
    handle_command (some ⟨"deepsleep_duration", PyVal.num 45⟩) defaultState
      = (⟨false, 45⟩, some (HandleLog.setDuration 45))
    ∧ handle_command (some ⟨"deepsleep_duration", PyVal.num (-1)⟩)
        defaultState = (defaultState, some HandleLog.invalidDuration)
    ∧ handle_command (some ⟨"deepsleep_duration", PyVal.str "x"⟩)
        defaultState = (defaultState, some HandleLog.invalidDuration) :=
  ⟨(handle_deepsleep_spec defaultState (PyVal.num 45)).1 45 rfl (by norm_num),
    (handle_deepsleep_spec defaultState (PyVal.num (-1))).2
      (by intro q hq; injection hq with h1; subst h1; norm_num),
    (handle_deepsleep_spec defaultState (PyVal.str "x")).2
      (by intro q hq; exact PyVal.noConfusion hq)⟩

/-- C8 counterexample: for the reading `{solar: 21.5, tank: 30.0,
faucet_closed: true, timestamp: 1000}`, the hub-parsed timestamp is the
hub's own clock (here 0), not the reading's 1000 — the node's payload
carries no timestamp field, so the original timestamp is not reproduced. -/
theorem telemetry_roundtrip_cex :
    (hub_parse (node_serialize ⟨some (43 / 2), some 30, true, 1000⟩)
        0).timestamp = 0
    ∧ (0 : Int) ≠ 1000 := by
  refine ⟨rfl, by decide⟩

/-- C8 amended: serializing on the node and parsing on the hub reproduces
`solar`, `tank` (including `null` for a failed probe, stored as-is and
not turned into 0) and `faucet_closed` exactly; but the node's payload
contains no "timestamp" key, and the hub's stored timestamp is its own
receive-time clock, so the reading's original timestamp is not
transported. -/
theorem telemetry_roundtrip_spec (r : TelemetryReading) (hubTime : Int) :
    (hub_parse (node_serialize r) hubTime).solar = optJ r.solar
    ∧ (hub_parse (node_serialize r) hubTime).tank = optJ r.tank
    ∧ (hub_parse (node_serialize r) hubTime).faucet_closed
      = JVal.bool r.faucet_closed
    ∧ (hub_parse (node_serialize r) hubTime).timestamp = hubTime
    ∧ (node_serialize r).lookup "timestamp" = none := by
  refine ⟨rfl, rfl, rfl, rfl, rfl⟩

/-- A successful toggle preserves agreement between the pin level and the
persisted value. -/
theorem toggle_true_sync (x : Bool) (v : ValveSt)
    (h : v.pin = v.persisted_valve_open) :
    ((toggle true x v).st).pin = ((toggle true x v).st).persisted_valve_open := by
  rw [toggle_true_st]
  split
  · exact h
  · rfl

/-- Pin/persisted agreement is preserved by any sequence of successful
toggles. -/
theorem run_toggles_sync (reqs : List Bool) :
    ∀ v : ValveSt, v.pin = v.persisted_valve_open →
      (run_toggles reqs v).pin = (run_toggles reqs v).persisted_valve_open := by
  induction reqs with
  | nil => intro v h; exact h
  | cons r rest ih =>
      intro v h
      exact ih ((toggle true r v).st) (toggle_true_sync r v h)

/-- C9 counterexample: with the valve already open, two successive
`toggle(open)` calls perform zero actuations and zero persistence writes
— not "exactly one actuation and one persistence write". -/
theorem toggle_idempotent_cex :
    (toggle true true ⟨true, true, true⟩).actuations
      + (toggle true true
          ((toggle true true ⟨true, true, true⟩).st)).actuations = 0
    ∧ (toggle true true ⟨true, true, true⟩).persists
      + (toggle true true
          ((toggle true true ⟨true, true, true⟩).st)).persists = 0 :=
  ⟨rfl, rfl⟩

/-- C9 amended: starting from any state where the pin level equals the
persisted value, after every sequence of successful toggle calls they
still agree (the persisted `valve_open` equals the physical output level
after each call); the second of two identical requests is always a no-op
(zero actuations, zero writes), and a pair of identical requests performs
exactly one actuation and one write when the prior position differs from
the request, and zero when it already matches. -/
theorem toggle_sync_spec (v : ValveSt) (h : v.pin = v.persisted_valve_open) :
    (∀ reqs : List Bool,
      (run_toggles reqs v).pin = (run_toggles reqs v).persisted_valve_open)
    ∧ (∀ x : Bool,
        (toggle true x ((toggle true x v).st)).actuations = 0
        ∧ (toggle true x ((toggle true x v).st)).persists = 0)
    ∧ (∀ x : Bool,
        (toggle true x v).actuations
          + (toggle true x ((toggle true x v).st)).actuations
          = if v.is_open = x then 0 else 1)
    ∧ (∀ x : Bool,
        (toggle true x v).persists
          + (toggle true x ((toggle true x v).st)).persists
          = if v.is_open = x then 0 else 1) := by
  refine ⟨fun reqs => run_toggles_sync reqs v h, fun x => ⟨?_, ?_⟩,
    fun x => ?_, fun x => ?_⟩
  · rw [(toggle_true_counts x ((toggle true x v).st)).1, toggle_true_is_open]
    simp
  · rw [(toggle_true_counts x ((toggle true x v).st)).2, toggle_true_is_open]
    simp
  · rw [(toggle_true_counts x v).1,
      (toggle_true_counts x ((toggle true x v).st)).1, toggle_true_is_open]
    simp
  · rw [(toggle_true_counts x v).2,
      (toggle_true_counts x ((toggle true x v).st)).2, toggle_true_is_open]
    simp

/-- Witness for C9 (amended) from the all-closed state. -/
theorem toggle_sync_spec_witness :
    (run_toggles [true, false] ⟨false, false, false⟩).pin
      = (run_toggles [true, false] ⟨false, false, false⟩).persisted_valve_open
    ∧ (toggle true true
        ((toggle true true ⟨false, false, false⟩).st)).actuations = 0
    ∧ (toggle true true ⟨false, false, false⟩).persists
      + (toggle true true
          ((toggle true true ⟨false, false, false⟩).st)).persists = 1 :=
  ⟨(toggle_sync_spec ⟨false, false, false⟩ rfl).1 [true, false],
    ((toggle_sync_spec ⟨false, false, false⟩ rfl).2.1 true).1,
    by simpa using (toggle_sync_spec ⟨false, false, false⟩ rfl).2.2.2 true⟩

/-- A filtered list satisfies the filtering predicate everywhere. -/
theorem all_filter_self {α : Type} (p : α → Bool) (l : List α) :
    (l.filter p).all p = true := by
  induction l with
  | nil => rfl
  | cons a t ih =>
      by_cases hp : p a = true <;>
        simp [List.filter_cons, hp, ih]

/-- A filtered list satisfies any predicate implied by the filter. -/
theorem all_filter_mono {α : Type} (p q : α → Bool) (l : List α)
    (h : ∀ a, p a = true → q a = true) : (l.filter p).all q = true := by
  induction l with
  | nil => rfl
  | cons a t ih =>
      by_cases hp : p a = true <;>
        simp [List.filter_cons, hp, ih, h a]

/-- The retention test is monotone in the cutoff. -/
theorem keep_mono {c1 c2 ts : ℚ} (h : c2 ≤ c1) (hk : keep c1 ts = true) :
    keep c2 ts = true := by
  simp [keep] at hk ⊢
  linarith

/-- Every timeframe's cutoff is at least the one-week cutoff. -/
theorem timeframe_cutoff_ge (now : ℚ) (tf : String) :
    now - MAX_DATA_AGE ≤ timeframe_cutoff now tf := by
  unfold timeframe_cutoff MAX_DATA_AGE
  split_ifs <;> linarith

/-- C10 counterexample: a faucet event logged at t = 0 is still retained
after an `add_reading` at t = 700000 (more than one week later), because
`add_reading` prunes only the temperature list — the claimed invariant
over both lists after every call fails. -/
theorem logger_retention_cex :
    (add_reading (add_faucet_event ⟨[], []⟩ 0 true) 700000 20 30).faucet_events
      = [⟨0, true⟩]
    ∧ keep ((700000 : ℚ) - MAX_DATA_AGE) 0 = false := by
  constructor
  · norm_num [add_reading, add_faucet_event, keep, MAX_DATA_AGE,
      List.filter_cons]
  · norm_num [keep, MAX_DATA_AGE]

/-- C10 amended: after `add_reading` every retained temperature entry is
strictly within the one-week window, and after `add_faucet_event` every
retained faucet event is — but each call prunes only its own list, leaving
the other untouched (possibly stale); `get_data`, for every timeframe
string including unrecognized ones, returns only entries strictly within
the one-week window. -/
theorem logger_retention_spec (st : LoggerState) (now solar tank : ℚ)
    (b : Bool) (tf : String) :
    ((add_reading st now solar tank).data.all
        (fun e => keep (now - MAX_DATA_AGE) e.ts)) = true
    ∧ (add_reading st now solar tank).faucet_events = st.faucet_events
    ∧ ((add_faucet_event st now b).faucet_events.all
        (fun e => keep (now - MAX_DATA_AGE) e.ts)) = true
    ∧ (add_faucet_event st now b).data = st.data
    ∧ ((get_data st now tf).1.all
        (fun e => keep (now - MAX_DATA_AGE) e.ts)) = true
    ∧ ((get_data st now tf).2.all
        (fun e => keep (now - MAX_DATA_AGE) e.ts)) = true := by
  refine ⟨all_filter_self _ _, rfl, all_filter_self _ _, rfl, ?_, ?_⟩
  · exact all_filter_mono _ _ _
      (fun e he => keep_mono (timeframe_cutoff_ge now tf) he)
  · exact all_filter_mono _ _ _
      (fun e he => keep_mono (timeframe_cutoff_ge now tf) he)
